import Mathlib

/-!
Verification of the fan-token frame endpoints (MisterGoldie/fantokens).

This file shallowly embeds the portfolio-fetch helpers, the display
formatters and the relevant route-handler logic of the repository:

* `src/api/index.tsx` : `getOwnedFanTokens` (lines 692-730), the
  `/owned-tokens` frame handler (lines 1055-1299) with its local
  `formatBalance` (1127-1132) and `formatNumber` (1134-1149);
* `src/unnamed/part_002` : `getOwnedFanTokens` (339-377), `getTokenInfo`'s
  FID extraction (440-444), and the `/owned-tokens` per-address
  aggregation loop (812-824);
* `src/unnamed/part_003` : the query variables of `getOwnedFanTokens`
  (273-275);
* `src/unnamed/part_000` : the no-FID guard of the `/check` handler
  (159-171).

JavaScript strings are modelled through their character lists, nullable
values by `Option`, and thrown exceptions by `Except Unit`.  JS numbers
are modelled by exact decimal fixed-point values (an integer mantissa
over a power of ten): every numeric value this code manipulates enters
as a decimal string or decimal literal, and every operation it performs
on numbers — parsing, dividing by powers of ten, comparing, and rounding
to a fixed count of decimal digits — stays inside that decimal fragment;
on all values exercised below the source's double-precision computation
is itself exact.  Network collaborators are passed in as oracles mapping
the query variables actually sent to the upstream reply, so that theorems
can also speak about which upstream calls a code path issues.
-/

namespace FanTokens

/-! ## Small JS-semantics helpers -/

/-- Numeric value of a list of decimal digit characters. -/
def digitsVal (ds : List Char) : Nat :=
  ds.foldl (fun a c => 10 * a + (c.toNat - 48)) 0

/-- Leading run of decimal digits, or `none` when there is none. -/
def parseDigits (ds : List Char) : Option Nat :=
  let t := ds.takeWhile Char.isDigit
  if t.isEmpty then none else some (digitsVal t)

/-- JS `parseInt` restricted to the base-10 integer strings this app passes
around as button values: optional minus sign followed by digits
(`none` models `NaN`). -/
def jsParseInt (s : String) : Option Int :=
  match s.data with
  | '-' :: rest => (parseDigits rest).map (fun n => -(n : Int))
  | ds => (parseDigits ds).map (fun n => (n : Int))

/-- JS `toLowerCase` on the ASCII addresses this app handles. -/
def jsToLower (s : String) : String := String.mk (s.data.map Char.toLower)

/-- An exact decimal number `num / 10 ^ exp`.  This represents the JS
numbers of the embedded code: see the header comment. -/
structure Dec where
  num : Int
  exp : Nat
deriving DecidableEq

/-- The rational value of a decimal fixed-point number. -/
def Dec.toRat (d : Dec) : ℚ := (d.num : ℚ) / 10 ^ d.exp

/-- Comparison `a ≤ b` on decimal values, by cross-multiplication. -/
def Dec.ble (a b : Dec) : Bool :=
  decide (a.num * 10 ^ b.exp ≤ b.num * 10 ^ a.exp)

/-- Comparison `a < b` on decimal values, by cross-multiplication. -/
def Dec.blt (a b : Dec) : Bool :=
  decide (a.num * 10 ^ b.exp < b.num * 10 ^ a.exp)

/-- Exact division of a decimal value by `10 ^ k`. -/
def Dec.div10pow (k : Nat) (d : Dec) : Dec := ⟨d.num, d.exp + k⟩

/-- The magnitude of a decimal value in hundredths, i.e.
`⌊100 * |d| + 1/2⌋`,
rounded half-up — the rounding `toFixed(2)` performs. -/
def Dec.cents (d : Dec) : Nat :=
  (200 * d.num.natAbs + 10 ^ d.exp) / (2 * 10 ^ d.exp)

/-- JS `parseFloat` restricted to the plain decimal grammar
(`digits` or `digits.digits`) used by the upstream numeric strings
(`balance`, `currentPriceInMoxie`, volumes); `none` models `NaN`. -/
def jsParseFloat (s : String) : Option Dec :=
  match s.data.span Char.isDigit with
  | (ds, []) => if ds.isEmpty then none else some ⟨(digitsVal ds : Int), 0⟩
  | (ds, '.' :: fs) =>
      if ds.isEmpty then none
      else if fs.isEmpty then none
      else if fs.all Char.isDigit then
        some ⟨(digitsVal ds : Int) * 10 ^ fs.length + (digitsVal fs : Int),
          fs.length⟩
      else none
  | _ => none

/-- JS `BigInt(string)` on the decimal strings the app feeds it:
optional minus sign and digits; the empty string is `0`; anything else
throws (`none`). -/
def parseBigInt (s : String) : Option Int :=
  match s.data with
  | [] => some 0
  | '-' :: ds =>
      if ds.isEmpty then none
      else if ds.all Char.isDigit then some (-(digitsVal ds : Int)) else none
  | ds => if ds.all Char.isDigit then some ((digitsVal ds : Int)) else none

/-- Render a natural number below 100 with exactly two digits. -/
def twoDigits (k : Nat) : String :=
  (if k < 10 then "0" else "") ++ Nat.repr k

/-- JS `Number.prototype.toFixed(2)`: per the ECMA specification the sign
is split off and the magnitude is rounded to the nearest multiple of
1/100 with ties going up.  (The `10^21` exponential fallback of `toFixed`
is outside every range exercised here.) -/
def toFixed2 (d : Dec) : String :=
  (if d.num < 0 then "-" else "") ++ Nat.repr (d.cents / 100) ++ "." ++
    twoDigits (d.cents % 100)

/-- Multiply `n` by 10 (at most `fuel` times) until it reaches
`threshold`, counting the steps taken. -/
def scaleUpTo (threshold : Int) : Nat → Int → Nat → Int × Nat
  | 0, n, k => (n, k)
  | fuel + 1, n, k =>
      if threshold ≤ n then (n, k) else scaleUpTo threshold fuel (n * 10) (k + 1)

/-- JS `Number.prototype.toExponential(2)`, modelled for arguments in the
open interval `(0, 0.01)` — the only range at which `formatNumber`
invokes it.  The mantissa is normalised into `[1, 10)` and keeps two
digits after the point (ties round up; a mantissa rounding to 10 moves to
the next decade). -/
def toExponential2 (d : Dec) : String :=
  let p := scaleUpTo (10 ^ d.exp) d.exp d.num 0
  let n := (Dec.mk p.1 d.exp).cents
  let nk := if n = 1000 then (100, p.2 - 1) else (n, p.2)
  Nat.repr (nk.1 / 100) ++ "." ++ twoDigits (nk.1 % 100) ++ "e-" ++ Nat.repr nk.2

/-! ## The display formatters (src/api/index.tsx 1127-1149) -/

/-- A JS value as received by `formatNumber`. -/
inductive JsValue where
  | num (d : Dec)
  | str (s : String)
  | nullV
  | undef

/-- The branch chain of `formatNumber` after the null/undefined guard and
the string-to-number coercion (src/api/index.tsx 1136-1148).  `none`
models `NaN`, whose comparisons are all false, so it falls through to the
final `toFixed(2)` branch, which JS renders as the string `NaN`. -/
def formatNumberCore (num : Option Dec) : String :=
  match num with
  | none => "NaN"
  | some q =>
    if Dec.ble ⟨1000000000, 0⟩ q then toFixed2 (Dec.div10pow 9 q) ++ "B"
    else if Dec.ble ⟨1000000, 0⟩ q then toFixed2 (Dec.div10pow 6 q) ++ "M"
    else if Dec.ble ⟨1000, 0⟩ q then toFixed2 (Dec.div10pow 3 q) ++ "K"
    else if Dec.blt ⟨0, 0⟩ q && Dec.blt q ⟨1, 2⟩ then toExponential2 q
    else toFixed2 q

/-- The function `formatNumber` (src/api/index.tsx 1134-1149): `null`/`undefined`
render as `N/A`, strings are coerced through `parseFloat`, then the
magnitude branch chain runs. -/
def formatNumber (value : JsValue) : String :=
  match value with
  | .nullV => "N/A"
  | .undef => "N/A"
  | .num d => formatNumberCore (some d)
  | .str s => formatNumberCore (jsParseFloat s)

/-- The function `formatBalance` (src/api/index.tsx 1127-1132): `BigInt(balance)`
(throwing on malformed input, modelled by `none`), divided by
`10 ** decimals` and rendered with `toFixed(2)`.  The JS default argument
for `decimals` is 18; call sites below pass it explicitly. -/
def formatBalance (balance : String) (decimals : Nat) : Option String :=
  (parseBigInt balance).map (fun bi => toFixed2 ⟨bi, decimals⟩)

/-! ## Data model

The shape of one element of the `users { portfolio { ... } }` GraphQL
reply (src/api/index.tsx 695-710); `decimals` is absent from the query,
so holdings are formatted with the default of 18. -/

structure SubjectToken where
  name : String
  symbol : String
  currentPriceInMoxie : String
deriving DecidableEq

structure TokenHolding where
  balance : String
  buyVolume : String
  sellVolume : String
  subjectToken : SubjectToken
deriving DecidableEq

structure PortfolioUser where
  portfolio : List TokenHolding
deriving DecidableEq

structure UsersResponse where
  users : List PortfolioUser
deriving DecidableEq

/-- An upstream holdings reply: either a thrown network/GraphQL error or
the parsed data. -/
abbrev FetchResult := Except Unit UsersResponse

/-! ## The portfolio fetchers -/

/-- The `variables` object of `getOwnedFanTokens`
(src/api/index.tsx 712-714): every input address is lower-cased. -/
def holdingsQueryVariables (addresses : List String) : List String :=
  addresses.map jsToLower

/-- The `variables` object of part_002's single-address
`getOwnedFanTokens` (src/unnamed/part_002 359-361): the address is
lower-cased and wrapped in a singleton list. -/
def holdingsQueryVariablesP2 (userAddress : String) : List String :=
  [jsToLower userAddress]

/-- The `variables` object of part_003's `getOwnedFanTokens`
(src/unnamed/part_003 273-275): the address is wrapped in a singleton
list unchanged — no lower-casing is performed. -/
def holdingsQueryVariablesP3 (userAddress : String) : List String :=
  [userAddress]

/-- The function `getOwnedFanTokens` (src/api/index.tsx 692-730).  One GraphQL request
is issued with the lower-cased addresses; a thrown error is caught and
`null` (= `none`) returned; an absent or empty `users` list also yields
`null`; otherwise the per-user portfolios are flattened in upstream
order (`data.users.flatMap(user => user.portfolio)`).  The second
component records the query-variable sets of the upstream requests the
call issues, in order. -/
def getOwnedFanTokens (addresses : List String)
    (request : List String → FetchResult) :
    Option (List TokenHolding) × List (List String) :=
  let userAddresses := holdingsQueryVariables addresses
  match request userAddresses with
  | .error _ => (none, [userAddresses])
  | .ok data =>
    if data.users.isEmpty then (none, [userAddresses])
    else (some ((data.users.map PortfolioUser.portfolio).flatten),
      [userAddresses])

/-- part_002's `getOwnedFanTokens` (src/unnamed/part_002 339-377): one
request for the single lower-cased address; errors are caught and `null`
returned; an absent/empty `users` list (or absent first portfolio, not
representable here) yields `null`; otherwise `data.users[0].portfolio`
is returned. -/
def getOwnedFanTokensP2 (userAddress : String)
    (request : List String → FetchResult) : Option (List TokenHolding) :=
  match request (holdingsQueryVariablesP2 userAddress) with
  | .error _ => none
  | .ok data =>
    match data.users with
    | [] => none
    | u :: _ => some u.portfolio

/-- The per-address accumulation loop of part_002's `/owned-tokens`
handler (src/unnamed/part_002 812-824): each address's fetch result is
concatenated onto the accumulator when non-null; a per-address failure is
caught, logged and skipped, and the loop continues with the next address.
(The vesting-contract lookup inside the same loop body does not affect
the token accumulator and is omitted.) -/
def ownedTokensAggregateP2 (addresses : List String)
    (request : List String → FetchResult) : List TokenHolding :=
  addresses.foldl (fun acc a =>
    match getOwnedFanTokensP2 a request with
    | some tokens => acc ++ tokens
    | none => acc) []

/-! ## FID extraction from a token symbol -/

/-- Does the character list start with the four characters `fid:`?
(JS `symbol.startsWith('fid:')`, src/api/index.tsx 1117.) -/
def hasFidTag : List Char → Bool
  | 'f' :: 'i' :: 'd' :: ':' :: _ => true
  | _ => false

/-- JS `String.prototype.split(sep)` for a single-character separator,
on character lists: `"".split(':')` is `[""]`, separators at either end
produce empty segments. -/
def splitOnChar (sep : Char) : List Char → List (List Char)
  | [] => [[]]
  | c :: rest =>
      match splitOnChar sep rest with
      | [] => [[]]
      | seg :: segs => if c = sep then [] :: seg :: segs else (c :: seg) :: segs

/-- The `/owned-tokens` handler's extraction (src/api/index.tsx
1117-1118): whenever the symbol merely starts with `fid:`, the segment
between the first and second colon (`symbol.split(':')[1]`) is used as
the FID for the secondary profile lookup — whether or not it consists of
digits. -/
def routeExtractFid (symbol : String) : Option String :=
  if hasFidTag symbol.data then
    some (String.mk ((splitOnChar ':' symbol.data).getD 1 []))
  else none

/-- The anchored pattern of part_002 `getTokenInfo` (src/unnamed/part_002
440-443) on character lists: the symbol must be `fid:` followed by one or
more digits and nothing else; the digits are the captured group. -/
def extractFidCore : List Char → Option (List Char)
  | 'f' :: 'i' :: 'd' :: ':' :: rest =>
      if rest.isEmpty then none
      else if rest.all Char.isDigit then some rest
      else none
  | _ => none

/-- part_002 `getTokenInfo`'s extraction (src/unnamed/part_002 440-443):
`symbol.match` against the anchored `fid:` digits pattern, returning the
captured digits. -/
def extractFidP2 (symbol : String) : Option String :=
  (extractFidCore symbol.data).map (fun cs => String.mk cs)

/-- The owner-name fallback (src/api/index.tsx 1174): the profile display
name when present, otherwise the token's own name; JS `||` also rejects
the empty string. -/
def displayOwnerName (profileName : Option String) (tokenName : String) :
    String :=
  match profileName with
  | some s => if s.isEmpty then tokenName else s
  | none => tokenName

/-! ## Route handlers -/

/-- The composed image of a frame response, reduced to the data the
claims are about. -/
inductive FrameImage where
  | errorNoFid
  | noTokensFound (fid : Nat)
  | tokenView (ownerName balance buyVolume price : String)
  | fetchError
  | checkView (tokenCount : Nat)
deriving DecidableEq

/-- A frame response: the image kind plus the action targets of its
buttons. -/
structure FrameResponse where
  image : FrameImage
  intents : List String
deriving DecidableEq

/-- One outbound network call, tagged with the data that identifies it. -/
inductive UpstreamCall where
  | addressLookup (fid : Nat)
  | vestingLookup (beneficiaries : List String)
  | holdingsQuery (vars : List String)
  | profileLookup (fid : String)
  | fanTokenLookup (fid : Nat)
deriving DecidableEq

/-- The `/owned-tokens` frame handler (src/api/index.tsx 1055-1299),
returning the rendered response and the trace of upstream calls issued.
Oracles stand for the external collaborators: `addressOracle` for
`getFarcasterAddressesFromFID` (which rethrows its errors),
`vestingOracle` for `getVestingContractAddress` (which catches its own
errors and returns `null`), `holdingsOracle` for the GraphQL reply to the
holdings query, `profileOracle` for `getProfileInfo`'s display name.
A falsy `fid` (`undefined` or `0`) returns the static no-FID error frame
before any network call.  The `catch` at 1273-1298 converts any exception
of the `try` body — a failed address lookup, an out-of-range token index
(making `token.subjectToken` a property access on `undefined`), or a
malformed balance string (making `BigInt` throw) — into the generic
error frame. -/
def ownedTokensRoute (fid : Option Nat) (buttonValue : Option String)
    (addressOracle : Nat → Except Unit (List String))
    (vestingOracle : List String → Except Unit (Option String))
    (holdingsOracle : List String → FetchResult)
    (profileOracle : String → Except Unit (Option String)) :
    FrameResponse × List UpstreamCall :=
  let currentIndex : Option Nat :=
    (jsParseInt (buttonValue.getD "0")).map (fun i => (max 0 i).toNat)
  match fid with
  | none => (⟨.errorNoFid, ["/"]⟩, [])
  | some n =>
    if n = 0 then (⟨.errorNoFid, ["/"]⟩, [])
    else
      match addressOracle n with
      | .error _ => (⟨.fetchError, ["/"]⟩, [.addressLookup n])
      | .ok userAddresses =>
        let vesting : Option String :=
          match vestingOracle userAddresses with
          | .error _ => none
          | .ok v => v
        let allAddresses :=
          userAddresses ++ (match vesting with | some v => [v] | none => [])
        let fetched := getOwnedFanTokens allAddresses holdingsOracle
        let calls := [UpstreamCall.addressLookup n, .vestingLookup userAddresses]
          ++ fetched.2.map UpstreamCall.holdingsQuery
        let allOwnedTokens := fetched.1.getD []
        if allOwnedTokens.isEmpty then (⟨.noTokensFound n, ["/"]⟩, calls)
        else
          match currentIndex with
          | none => (⟨.fetchError, ["/"]⟩, calls)
          | some idx =>
            match allOwnedTokens.get? idx with
            | none => (⟨.fetchError, ["/"]⟩, calls)
            | some token =>
              let pr : Option String × List UpstreamCall :=
                match routeExtractFid token.subjectToken.symbol with
                | some tf =>
                  (match profileOracle tf with
                   | .error _ => none
                   | .ok nm => nm, calls ++ [.profileLookup tf])
                | none => (none, calls)
              let ownerName := displayOwnerName pr.1 token.subjectToken.name
              match formatBalance token.balance 18,
                    formatBalance token.buyVolume 18 with
              | some bal, some buy =>
                (⟨.tokenView ownerName bal buy
                      (formatNumber (.str token.subjectToken.currentPriceInMoxie)),
                  ["/"]
                    ++ (if idx + 1 < allOwnedTokens.length
                        then ["/owned-tokens"] else [])
                    ++ (if 0 < idx then ["/owned-tokens"] else [])
                    ++ ["share"]⟩,
                 pr.2)
              | _, _ => (⟨.fetchError, ["/"]⟩, pr.2)

/-- The `/check` frame handler of part_000 (src/unnamed/part_000
153-246), modelled down to the data the claims are about: a falsy `fid`
returns the static no-FID error frame with a single Back button and
issues no upstream call; otherwise `getFanTokenInfo` runs (its errors are
caught, leaving the token list empty) and the listing view is rendered
with Back and Refresh buttons. -/
def checkRoute (fid : Option Nat)
    (fanTokenOracle : Nat → Except Unit (List String)) :
    FrameResponse × List UpstreamCall :=
  match fid with
  | none => (⟨.errorNoFid, ["/"]⟩, [])
  | some n =>
    if n = 0 then (⟨.errorNoFid, ["/"]⟩, [])
    else
      let fanTokens := match fanTokenOracle n with | .error _ => [] | .ok ts => ts
      (⟨.checkView fanTokens.length, ["/", "/check"]⟩, [.fanTokenLookup n])

/-! ## Spec-side definitions (from the claims' words, for comparison) -/

/-- Spec-side: is the list strictly descending under the numeric key `f`? -/
def strictDescBy (f : TokenHolding → Dec) : List TokenHolding → Bool
  | a :: b :: rest => if Dec.blt (f b) (f a) then strictDescBy f (b :: rest)
      else false
  | _ => true

/-- Spec-side: the parsed numeric value of a holding's balance field
(`NaN` reads as 0 for the comparison's sake; the inputs below parse). -/
def parsedBalance (t : TokenHolding) : Dec :=
  (jsParseFloat t.balance).getD ⟨0, 0⟩

/-- Spec-side: the number of significant digits of the mantissa of a
rendered number — digits before the exponent marker, ignoring leading
zeros. -/
def sigDigitCount (s : String) : Nat :=
  (((s.data.takeWhile (fun c => c ≠ 'e')).filter Char.isDigit).dropWhile
    (fun c => c = '0')).length

/-! ## Bridging lemmas for the decimal representation -/

/-- The boolean `≤` on decimal values agrees with `≤` on their rational
values. -/
theorem Dec.ble_iff (a b : Dec) : (Dec.ble a b = true) ↔ a.toRat ≤ b.toRat := by
  rw [Dec.ble, decide_eq_true_eq, Dec.toRat, Dec.toRat,
    div_le_div_iff₀ (by positivity) (by positivity)]
  constructor
  · intro h; exact_mod_cast h
  · intro h; exact_mod_cast h

/-- The boolean `<` on decimal values agrees with `<` on their rational
values. -/
theorem Dec.blt_iff (a b : Dec) : (Dec.blt a b = true) ↔ a.toRat < b.toRat := by
  rw [Dec.blt, decide_eq_true_eq, Dec.toRat, Dec.toRat,
    div_lt_div_iff₀ (by positivity) (by positivity)]
  constructor
  · intro h; exact_mod_cast h
  · intro h; exact_mod_cast h

/-- Dividing by `div10pow` divides the rational value by `10 ^ k`. -/
theorem Dec.div10pow_toRat (k : Nat) (d : Dec) :
    (Dec.div10pow k d).toRat = d.toRat / 10 ^ k := by
  simp [Dec.div10pow, Dec.toRat, pow_add, div_div]

/-- Comparing an integer-valued decimal constant against a decimal value. -/
theorem Dec.const_ble_iff (n : Int) (d : Dec) :
    (Dec.ble ⟨n, 0⟩ d = true) ↔ (n : ℚ) ≤ d.toRat := by
  rw [Dec.ble_iff]; norm_num [Dec.toRat]

/-- Comparing an integer-valued decimal constant against a decimal value,
strictly. -/
theorem Dec.const_blt_iff (n : Int) (d : Dec) :
    (Dec.blt ⟨n, 0⟩ d = true) ↔ (n : ℚ) < d.toRat := by
  rw [Dec.blt_iff]; norm_num [Dec.toRat]

/-- Comparing a decimal value against the constant 1/100. -/
theorem Dec.blt_centi_iff (d : Dec) :
    (Dec.blt d ⟨1, 2⟩ = true) ↔ d.toRat < 1 / 100 := by
  rw [Dec.blt_iff]; norm_num [Dec.toRat]

/-! ## Concrete holdings used in several scenarios below -/

/-- A holding with parsed balance 1. -/
def tokA : TokenHolding := ⟨"1", "0", "0", ⟨"Alice", "fid:1", "0.5"⟩⟩

/-- A holding with parsed balance 2. -/
def tokB : TokenHolding := ⟨"2", "0", "0", ⟨"Bob", "fid:2", "0.5"⟩⟩

/-- A channel-owned holding whose symbol carries no `fid:` tag. -/
def chanTok : TokenHolding :=
  ⟨"1000000000000000000", "0", "0", ⟨"MyChannel", "mychannel", "0.5"⟩⟩

/-- A holding whose symbol starts with `fid:` but is not followed by
digits. -/
def badTok : TokenHolding := ⟨"5", "0", "0", ⟨"Odd", "fid:abc", "0.5"⟩⟩

/-- An oracle that answers the query for address `0xa` and fails any
other query. -/
def failSecondRequest : List String → FetchResult := fun vars =>
  if vars = ["0xa"] then .ok ⟨[⟨[tokA]⟩]⟩ else .error ()

/-- Every `toFixed2` rendering ends in a decimal point followed by
exactly two digits. -/
theorem toFixed2_data (d : Dec) :
    ∃ pre ds, (toFixed2 d).data = pre ++ '.' :: ds ∧ ds.length = 2 ∧
      ds.all Char.isDigit = true := by
  have h2 : ∀ k, k < 100 → (twoDigits k).data.length = 2 ∧
      (twoDigits k).data.all Char.isDigit = true := by decide
  have hm : d.cents % 100 < 100 := Nat.mod_lt _ (by norm_num)
  refine ⟨((if d.num < 0 then "-" else "") ++ Nat.repr (d.cents / 100)).data,
    (twoDigits (d.cents % 100)).data, ?_, (h2 _ hm).1, (h2 _ hm).2⟩
  show ((((if d.num < 0 then "-" else "") ++ Nat.repr (d.cents / 100)) ++ "." ) ++
      twoDigits (d.cents % 100)).data = _
  rw [String.data_append, String.data_append]
  have hdot : (".".data) = ['.'] := rfl
  rw [hdot, List.append_assoc]
  rfl

/-! ## Claims -/

/-- C5: the spec requires every owner address to be lower-cased before it
is placed in the upstream holdings query (the upstream index is
case-sensitive on address identifiers), and `src/api/index.tsx` and
`part_002` do so — but `part_003`'s `getOwnedFanTokens` sends the address
unchanged, so the claim fails on that cited variant: the code there is
the slip (its call site is even marked unimplemented in the source). -/
theorem C5_lowercasingDivergence :
    holdingsQueryVariables ["0xAbC"] = ["0xabc"] ∧
    holdingsQueryVariablesP2 "0xAbC" = ["0xabc"] ∧
    holdingsQueryVariablesP3 "0xAbC" = ["0xAbC"] ∧
    holdingsQueryVariablesP3 "0xAbC" ≠ ["0xabc"] := by
  refine ⟨by decide, by decide, rfl, by decide⟩

/-- C6 (counterexample): `formatNumber` renders 0.005 through
`toExponential(2)` as `5.00e-3`, whose mantissa has three significant
digits, not the two the claim states. -/
theorem C6_counterexample :
    formatNumber (.num ⟨5, 3⟩) = "5.00e-3" ∧
    sigDigitCount "5.00e-3" ≠ 2 := by
  refine ⟨by decide, by decide⟩

/-- C6 (amended): `formatNumber` maps 999 to `999.00`, 1000 to `1.00K`,
1000000 to `1.00M`, 0 to `0.00`, and any `v` with `0 < v < 0.01` to
scientific notation with two digits after the mantissa's decimal point
(three significant digits), e.g. 0.005 to `5.00e-3`; other values below
1e3 get two fixed decimals, values in `[1e3, 1e6)` are divided by 1e3
with suffix `K`, values in `[1e6, 1e9)` by 1e6 with suffix `M`, and
values at or above 1e9 by 1e9 with suffix `B`. -/
theorem C6_amended :
    formatNumber (.num ⟨999, 0⟩) = "999.00" ∧
    formatNumber (.num ⟨1000, 0⟩) = "1.00K" ∧
    formatNumber (.num ⟨1000000, 0⟩) = "1.00M" ∧
    formatNumber (.num ⟨0, 0⟩) = "0.00" ∧
    formatNumber (.num ⟨5, 3⟩) = "5.00e-3" ∧
    (∀ d : Dec, 0 < d.toRat → d.toRat < 1 / 100 →
        formatNumber (.num d) = toExponential2 d) ∧
    (∀ d : Dec, d.toRat < 1000 → ¬(0 < d.toRat ∧ d.toRat < 1 / 100) →
        formatNumber (.num d) = toFixed2 d) ∧
    (∀ d : Dec, 1000 ≤ d.toRat → d.toRat < 1000000 →
        (Dec.div10pow 3 d).toRat = d.toRat / 1000 ∧
        formatNumber (.num d) = toFixed2 (Dec.div10pow 3 d) ++ "K") ∧
    (∀ d : Dec, 1000000 ≤ d.toRat → d.toRat < 1000000000 →
        (Dec.div10pow 6 d).toRat = d.toRat / 1000000 ∧
        formatNumber (.num d) = toFixed2 (Dec.div10pow 6 d) ++ "M") ∧
    (∀ d : Dec, 1000000000 ≤ d.toRat →
        (Dec.div10pow 9 d).toRat = d.toRat / 1000000000 ∧
        formatNumber (.num d) = toFixed2 (Dec.div10pow 9 d) ++ "B") := by
  refine ⟨by decide, by decide, by decide, by decide, by decide,
    ?_, ?_, ?_, ?_, ?_⟩
  · intro d h1 h2
    have hB : ¬ (Dec.ble ⟨1000000000, 0⟩ d = true) := by
      rw [Dec.const_ble_iff]; push_cast; intro h; linarith
    have hM : ¬ (Dec.ble ⟨1000000, 0⟩ d = true) := by
      rw [Dec.const_ble_iff]; push_cast; intro h; linarith
    have hK : ¬ (Dec.ble ⟨1000, 0⟩ d = true) := by
      rw [Dec.const_ble_iff]; push_cast; intro h; linarith
    have hS : (Dec.blt ⟨0, 0⟩ d && Dec.blt d ⟨1, 2⟩) = true := by
      rw [Bool.and_eq_true, Dec.const_blt_iff, Dec.blt_centi_iff]
      exact ⟨by exact_mod_cast h1, h2⟩
    simp only [formatNumber, formatNumberCore]
    rw [if_neg hB, if_neg hM, if_neg hK, if_pos hS]
  · intro d h1 h2
    have hB : ¬ (Dec.ble ⟨1000000000, 0⟩ d = true) := by
      rw [Dec.const_ble_iff]; push_cast; intro h; linarith
    have hM : ¬ (Dec.ble ⟨1000000, 0⟩ d = true) := by
      rw [Dec.const_ble_iff]; push_cast; intro h; linarith
    have hK : ¬ (Dec.ble ⟨1000, 0⟩ d = true) := by
      rw [Dec.const_ble_iff]; push_cast; intro h; linarith
    have hS : ¬ ((Dec.blt ⟨0, 0⟩ d && Dec.blt d ⟨1, 2⟩) = true) := by
      rw [Bool.and_eq_true, Dec.const_blt_iff, Dec.blt_centi_iff]
      push_cast
      exact h2
    simp only [formatNumber, formatNumberCore]
    rw [if_neg hB, if_neg hM, if_neg hK, if_neg hS]
  · intro d h1 h2
    refine ⟨Dec.div10pow_toRat 3 d, ?_⟩
    have hB : ¬ (Dec.ble ⟨1000000000, 0⟩ d = true) := by
      rw [Dec.const_ble_iff]; push_cast; intro h; linarith
    have hM : ¬ (Dec.ble ⟨1000000, 0⟩ d = true) := by
      rw [Dec.const_ble_iff]; push_cast; intro h; linarith
    have hK : Dec.ble ⟨1000, 0⟩ d = true := by
      rw [Dec.const_ble_iff]; exact_mod_cast h1
    simp only [formatNumber, formatNumberCore]
    rw [if_neg hB, if_neg hM, if_pos hK]
  · intro d h1 h2
    refine ⟨Dec.div10pow_toRat 6 d, ?_⟩
    have hB : ¬ (Dec.ble ⟨1000000000, 0⟩ d = true) := by
      rw [Dec.const_ble_iff]; push_cast; intro h; linarith
    have hM : Dec.ble ⟨1000000, 0⟩ d = true := by
      rw [Dec.const_ble_iff]; exact_mod_cast h1
    simp only [formatNumber, formatNumberCore]
    rw [if_neg hB, if_pos hM]
  · intro d h1
    refine ⟨Dec.div10pow_toRat 9 d, ?_⟩
    have hB : Dec.ble ⟨1000000000, 0⟩ d = true := by
      rw [Dec.const_ble_iff]; exact_mod_cast h1
    simp only [formatNumber, formatNumberCore]
    rw [if_pos hB]

/-- C6 (witness): the `K` branch at 5000. -/
theorem C6_witness :
    (Dec.div10pow 3 ⟨5000, 0⟩).toRat = (Dec.mk 5000 0).toRat / 1000 ∧
    formatNumber (.num ⟨5000, 0⟩) = toFixed2 (Dec.div10pow 3 ⟨5000, 0⟩) ++ "K" :=
  C6_amended.2.2.2.2.2.2.2.1 ⟨5000, 0⟩ (by norm_num [Dec.toRat])
    (by norm_num [Dec.toRat])

/-- C7: `formatBalance` renders `balance / 10^decimals` with exactly two
fractional digits; in particular the wei string for one token with 18
decimals gives `1.00` and the zero balance gives `0.00` (the source's
default `decimals` is 18). -/
theorem C7_formatBalance (b : String) (d : Nat) (s : String)
    (h : formatBalance b d = some s) :
    formatBalance "1000000000000000000" 18 = some "1.00" ∧
    formatBalance "0" 18 = some "0.00" ∧
    ∃ pre ds, s.data = pre ++ '.' :: ds ∧ ds.length = 2 ∧
      ds.all Char.isDigit = true := by
  refine ⟨by decide, by decide, ?_⟩
  rw [formatBalance, Option.map_eq_some'] at h
  obtain ⟨bi, _, rfl⟩ := h
  exact toFixed2_data _

/-- C7 (witness): the zero balance. -/
theorem C7_witness :
    formatBalance "0" 18 = some "0.00" ∧
    ∃ pre ds, ("0.00" : String).data = pre ++ '.' :: ds ∧ ds.length = 2 ∧
      ds.all Char.isDigit = true := by
  have h := C7_formatBalance "0" 18 "0.00" (by decide)
  exact ⟨h.2.1, h.2.2⟩

/-- C10: `formatNumber` maps `null` and `undefined` to `N/A`, and every
number `v ≤ 0` — including -0.005, which is smaller than 0.01 — to the
fixed two-decimal rendering, never to scientific notation, because the
exponential branch requires `num > 0`. -/
theorem C10_formatNumber :
    formatNumber .nullV = "N/A" ∧
    formatNumber .undef = "N/A" ∧
    formatNumber (.num ⟨-5, 3⟩) = "-0.01" ∧
    (∀ d : Dec, d.toRat ≤ 0 → formatNumber (.num d) = toFixed2 d) := by
  refine ⟨rfl, rfl, by decide, ?_⟩
  intro d hq
  have hB : ¬ (Dec.ble ⟨1000000000, 0⟩ d = true) := by
    rw [Dec.const_ble_iff]; push_cast; intro h; linarith
  have hM : ¬ (Dec.ble ⟨1000000, 0⟩ d = true) := by
    rw [Dec.const_ble_iff]; push_cast; intro h; linarith
  have hK : ¬ (Dec.ble ⟨1000, 0⟩ d = true) := by
    rw [Dec.const_ble_iff]; push_cast; intro h; linarith
  have hS : ¬ ((Dec.blt ⟨0, 0⟩ d && Dec.blt d ⟨1, 2⟩) = true) := by
    rw [Bool.and_eq_true, Dec.const_blt_iff, Dec.blt_centi_iff]
    push_cast
    rintro ⟨h1, _⟩
    linarith
  simp only [formatNumber, formatNumberCore]
  rw [if_neg hB, if_neg hM, if_neg hK, if_neg hS]

/-- C10 (witness): the fixed branch at -1. -/
theorem C10_witness : formatNumber (.num ⟨-1, 0⟩) = toFixed2 ⟨-1, 0⟩ :=
  C10_formatNumber.2.2.2 ⟨-1, 0⟩ (by norm_num [Dec.toRat])

/-! ## Splitting and extraction lemmas -/

/-- A list without the separator splits into a single segment. -/
theorem splitOnChar_eq_of_not_mem (sep : Char) (cs : List Char)
    (h : sep ∉ cs) : splitOnChar sep cs = [cs] := by
  induction cs with
  | nil => rfl
  | cons c rest ih =>
    have hc : ¬ (c = sep) := by
      intro hcc
      subst hcc
      exact h (List.mem_cons_self c rest)
    have hr : sep ∉ rest := fun hm => h (List.mem_cons_of_mem _ hm)
    rw [splitOnChar, ih hr]
    simp [hc]

/-- The route-level extractor on a `fid:`-prefixed digit run: the first
split segment after `fid` is the whole run. -/
theorem routeExtractFid_digits (ds : List Char)
    (hdig : ∀ c ∈ ds, c.isDigit) :
    routeExtractFid (String.mk ('f' :: 'i' :: 'd' :: ':' :: ds)) =
      some (String.mk ds) := by
  have hsp : splitOnChar ':' ds = [ds] :=
    splitOnChar_eq_of_not_mem _ _ (fun hm => absurd (hdig _ hm) (by decide))
  rw [routeExtractFid,
    if_pos (show hasFidTag (String.mk ('f' :: 'i' :: 'd' :: ':' :: ds)).data
      = true from rfl)]
  show some (String.mk ((splitOnChar ':' ('f' :: 'i' :: 'd' :: ':' :: ds)).getD
    1 [])) = some (String.mk ds)
  rw [splitOnChar, splitOnChar, splitOnChar, splitOnChar, hsp]
  rfl

/-- The anchored extractor on a `fid:`-prefixed nonempty digit run. -/
theorem extractFidCore_digits (ds : List Char) (hne : ds ≠ [])
    (hdig : ∀ c ∈ ds, c.isDigit) :
    extractFidCore ('f' :: 'i' :: 'd' :: ':' :: ds) = some ds := by
  show (if ds.isEmpty then none
    else if ds.all Char.isDigit then some ds else none) = some ds
  rw [if_neg (fun hie => hne (List.isEmpty_iff.mp hie)),
    if_pos (List.all_eq_true.mpr hdig)]

/-- Without the `fid:` prefix the anchored extractor yields nothing. -/
theorem extractFidCore_eq_none (cs : List Char) (h : hasFidTag cs = false) :
    extractFidCore cs = none := by
  unfold extractFidCore
  split
  · simp [hasFidTag] at h
  · rfl

/-- C8 (counterexample): the `/owned-tokens` route extracts an identifier
from a symbol that merely starts with `fid:` even when what follows is
not digits — `fid:abc` yields `abc`, and a profile lookup for `abc` is
issued — so the extraction is not an if-and-only-if on the `fid:` digits
pattern. -/
theorem C8_counterexample :
    routeExtractFid "fid:abc" = some "abc" ∧
    ("abc".data.all Char.isDigit) = false ∧
    ((ownedTokensRoute (some 7) none (fun _ => .ok ["0xA"]) (fun _ => .ok none)
        (fun _ => .ok ⟨[⟨[badTok]⟩]⟩) (fun _ => .ok none)).2.contains
      (.profileLookup "abc")) = true := by
  refine ⟨by decide, by decide, by decide⟩

/-- C8 (amended): part_002's `getTokenInfo` extracts the digits exactly
when the symbol matches the anchored `fid:` digits pattern, and on such
symbols the route-level extractor agrees; however the `/owned-tokens`
route itself extracts the segment after the first colon whenever the
symbol merely starts with `fid:`, digits or not.  A symbol without the
`fid:` prefix (e.g. `mychannel`) yields no identifier under either
extractor, and the displayed owner name falls back to the token's own
name with no profile lookup issued. -/
theorem C8_amended :
    routeExtractFid "fid:12345" = some "12345" ∧
    extractFidP2 "fid:12345" = some "12345" ∧
    routeExtractFid "mychannel" = none ∧
    extractFidP2 "mychannel" = none ∧
    (∀ ds : List Char, ds ≠ [] → (∀ c ∈ ds, c.isDigit) →
        extractFidP2 (String.mk ('f' :: 'i' :: 'd' :: ':' :: ds)) =
          some (String.mk ds) ∧
        routeExtractFid (String.mk ('f' :: 'i' :: 'd' :: ':' :: ds)) =
          some (String.mk ds)) ∧
    (∀ s : String, hasFidTag s.data = false →
        routeExtractFid s = none ∧ extractFidP2 s = none) ∧
    ((ownedTokensRoute (some 7) none (fun _ => .ok ["0xA"]) (fun _ => .ok none)
        (fun _ => .ok ⟨[⟨[chanTok]⟩]⟩)
        (fun _ => .ok (some "ShouldNotAppear"))).1.image
      = .tokenView "MyChannel" "1.00" "0.00" "0.50" ∧
     ((ownedTokensRoute (some 7) none (fun _ => .ok ["0xA"]) (fun _ => .ok none)
        (fun _ => .ok ⟨[⟨[chanTok]⟩]⟩)
        (fun _ => .ok (some "ShouldNotAppear"))).2.all
       (fun c => match c with | .profileLookup _ => false | _ => true)) = true) := by
  refine ⟨by decide, by decide, by decide, by decide, ?_, ?_, by decide, by decide⟩
  · intro ds hne hdig
    refine ⟨?_, routeExtractFid_digits ds hdig⟩
    rw [extractFidP2]
    rw [show (String.mk ('f' :: 'i' :: 'd' :: ':' :: ds)).data
      = 'f' :: 'i' :: 'd' :: ':' :: ds from rfl]
    rw [extractFidCore_digits ds hne hdig]
    rfl
  · intro s h
    refine ⟨by simp [routeExtractFid, h], ?_⟩
    rw [extractFidP2, extractFidCore_eq_none s.data h]
    rfl

/-- C8 (witness): the digit run `9`. -/
theorem C8_witness :
    extractFidP2 (String.mk ['f', 'i', 'd', ':', '9']) = some (String.mk ['9']) ∧
    routeExtractFid (String.mk ['f', 'i', 'd', ':', '9']) =
      some (String.mk ['9']) :=
  C8_amended.2.2.2.2.1 ['9'] (by decide) (by decide)

/-- C1 (counterexample): with a single upstream reply whose holdings come
back in ascending balance order, `getOwnedFanTokens` returns them
unchanged — the aggregated list is not sorted descending by parsed
numeric balance, because no client-side sort exists. -/
theorem C1_counterexample :
    (getOwnedFanTokens ["0xa"] (fun _ => .ok ⟨[⟨[tokA, tokB]⟩]⟩)).1 =
      some [tokA, tokB] ∧
    strictDescBy parsedBalance [tokA, tokB] = false := by
  refine ⟨by decide, by decide⟩

/-- C1 (amended): on a successful reply with a non-empty `users` list the
aggregated list is exactly the concatenation of the returned users'
portfolios in upstream order — no client-side sorting is applied, so the
result is only sorted when the upstream reply is — and each holding
occurs exactly as often as the upstream portfolios contain it (no
duplicate is introduced and none is removed). -/
theorem C1_amended (addresses : List String) (resp : UsersResponse)
    (hne : resp.users ≠ []) :
    (getOwnedFanTokens addresses (fun _ => .ok resp)).1 =
      some ((resp.users.map PortfolioUser.portfolio).flatten) ∧
    ∀ t : TokenHolding,
      ((resp.users.map PortfolioUser.portfolio).flatten).count t =
        ((resp.users.map PortfolioUser.portfolio).map (List.count t)).sum := by
  constructor
  · have h : resp.users.isEmpty = false := by
      rw [List.isEmpty_eq_false]; exact hne
    simp [getOwnedFanTokens, h]
  · intro t
    exact List.count_flatten t _

/-- C1 (witness): a one-user, one-holding reply. -/
theorem C1_witness :
    (getOwnedFanTokens ["0xa"] (fun _ => Except.ok ⟨[⟨[tokA]⟩]⟩)).1 =
      some (((UsersResponse.mk [⟨[tokA]⟩]).users.map
        PortfolioUser.portfolio).flatten) :=
  (C1_amended ["0xa"] ⟨[⟨[tokA]⟩]⟩ (by decide)).1

set_option maxRecDepth 8000 in
/-- C2 (counterexample): even when the upstream reply carries 1000
holdings — a full page at the spec's example page size — exactly one
upstream query is issued and the entire reply is consumed: there is no
cursor advance and no second fetch. -/
theorem C2_counterexample :
    (getOwnedFanTokens ["0xa"]
        (fun _ => .ok ⟨[⟨List.replicate 1000 tokA⟩]⟩)).2.length = 1 ∧
    ((getOwnedFanTokens ["0xa"]
        (fun _ => .ok ⟨[⟨List.replicate 1000 tokA⟩]⟩)).1.getD []).length =
      1000 := by
  constructor
  · rfl
  · simp [getOwnedFanTokens]

/-- C2 (amended): `getOwnedFanTokens` issues exactly one upstream query,
whose variables are the lower-cased addresses and which carries no
`first`/`skip` pagination cursor; the whole result comes from that single
reply, whatever its size. -/
theorem C2_amended (addresses : List String)
    (request : List String → FetchResult) :
    (getOwnedFanTokens addresses request).2 =
      [holdingsQueryVariables addresses] := by
  simp only [getOwnedFanTokens]
  cases h : request (holdingsQueryVariables addresses) with
  | error e => simp [h]
  | ok data => by_cases he : data.users.isEmpty <;> simp [h, he]

/-- C2 (witness): a failing request still issues exactly the one query. -/
theorem C2_witness :
    (getOwnedFanTokens ["0xA"] (fun _ => Except.error ())).2 =
      [holdingsQueryVariables ["0xA"]] :=
  C2_amended ["0xA"] (fun _ => Except.error ())

/-- C3 (counterexample): in part_002's per-address loop, a failing fetch
for the second address is swallowed and the holdings already fetched for
the first address are returned — a truncated accumulator, with no error
surfaced to the caller. -/
theorem C3_counterexample :
    ownedTokensAggregateP2 ["0xA", "0xB"] failSecondRequest = [tokA] ∧
    (failSecondRequest (holdingsQueryVariablesP2 "0xB")).isOk = false := by
  refine ⟨by decide, by decide⟩

/-- C3 (amended): upstream errors are swallowed, not surfaced.  The
index.tsx fetch returns the `null` sentinel when its single request
fails (so that call alone returns no partial list), while part_002's
per-address loop skips failing addresses and returns the concatenation
of whatever the succeeding addresses produced — a partial result. -/
theorem C3_amended (addresses : List String)
    (request : List String → FetchResult) :
    (getOwnedFanTokens addresses (fun _ => Except.error ())).1 = none ∧
    ownedTokensAggregateP2 addresses request =
      (addresses.map
        (fun a => (getOwnedFanTokensP2 a request).getD [])).flatten := by
  refine ⟨rfl, ?_⟩
  have key : ∀ (l : List String) (acc : List TokenHolding),
      l.foldl (fun acc a =>
        match getOwnedFanTokensP2 a request with
        | some tokens => acc ++ tokens
        | none => acc) acc =
      acc ++ (l.map
        (fun a => (getOwnedFanTokensP2 a request).getD [])).flatten := by
    intro l
    induction l with
    | nil => intro acc; simp
    | cons a rest ih =>
      intro acc
      rw [List.foldl_cons, List.map_cons, List.flatten_cons, ih]
      cases h : getOwnedFanTokensP2 a request with
      | none => simp [h]
      | some tokens => simp [h, List.append_assoc]
  simpa [ownedTokensAggregateP2] using key addresses []

/-- C3 (witness): the loop over a single failing address returns the
empty concatenation. -/
theorem C3_witness :
    ownedTokensAggregateP2 ["0xA"] failSecondRequest =
      ((["0xA"].map (fun a =>
        (getOwnedFanTokensP2 a failSecondRequest).getD [])).flatten) :=
  (C3_amended ["0xA"] failSecondRequest).2

/-- C4 (counterexample): an upstream error during the holdings fetch
produces exactly the same `No fan tokens found` response as a genuine
zero-holdings reply — the error outcome is presented as the empty state,
which the claim says never happens. -/
theorem C4_counterexample :
    (ownedTokensRoute (some 5) none (fun _ => .ok ["0xA"]) (fun _ => .ok none)
        (fun _ => .error ()) (fun _ => .ok none)).1 =
      (ownedTokensRoute (some 5) none (fun _ => .ok ["0xA"]) (fun _ => .ok none)
        (fun _ => .ok ⟨[]⟩) (fun _ => .ok none)).1 ∧
    (ownedTokensRoute (some 5) none (fun _ => .ok ["0xA"]) (fun _ => .ok none)
        (fun _ => .error ()) (fun _ => .ok none)).1 =
      ⟨.noTokensFound 5, ["/"]⟩ := by
  refine ⟨by decide, by decide⟩

/-- C4 (amended): when the upstream returns zero holdings the fetch
returns the `null` sentinel and the route renders the `No fan tokens
found` response with a single Back recovery action; but the sentinel is
not distinct from the error outcome — a failed upstream fetch also
returns `null` and is rendered as the same empty state. -/
theorem C4_amended (n : Nat) (hn : ¬ (n = 0)) (bv : Option String)
    (addrO : Nat → Except Unit (List String))
    (vestO : List String → Except Unit (Option String))
    (profO : String → Except Unit (Option String))
    (addrs : List String) (ha : addrO n = .ok addrs) :
    (ownedTokensRoute (some n) bv addrO vestO (fun _ => .ok ⟨[]⟩) profO).1 =
      ⟨.noTokensFound n, ["/"]⟩ ∧
    (ownedTokensRoute (some n) bv addrO vestO (fun _ => .error ()) profO).1 =
      ⟨.noTokensFound n, ["/"]⟩ := by
  constructor <;>
  · simp only [ownedTokensRoute]
    rw [if_neg hn, ha]
    cases hv : vestO addrs <;>
      simp [getOwnedFanTokens, holdingsQueryVariables, hv]

/-- C4 (witness): the zero-holdings empty state at FID 9. -/
theorem C4_witness :
    (ownedTokensRoute (some 9) none (fun _ => Except.ok [])
        (fun _ => Except.ok none) (fun _ => Except.ok ⟨[]⟩)
        (fun _ => Except.ok none)).1 =
      ⟨.noTokensFound 9, ["/"]⟩ :=
  (C4_amended 9 (by decide) none (fun _ => Except.ok [])
    (fun _ => Except.ok none) (fun _ => Except.ok none) [] rfl).1

/-- C9: a request whose frame data carries no FID makes both the
`/owned-tokens` handler and part_000's `/check` handler return the static
no-FID error response with a single back-to-home action, issuing no
upstream call and throwing nothing, whatever the collaborators would
do. -/
theorem C9_noFidShortCircuit (bv : Option String)
    (addrO : Nat → Except Unit (List String))
    (vestO : List String → Except Unit (Option String))
    (holdO : List String → FetchResult)
    (profO : String → Except Unit (Option String))
    (ftO : Nat → Except Unit (List String)) :
    ownedTokensRoute none bv addrO vestO holdO profO =
      (⟨.errorNoFid, ["/"]⟩, []) ∧
    checkRoute none ftO = (⟨.errorNoFid, ["/"]⟩, []) :=
  ⟨rfl, rfl⟩

/-- C9 (witness): with collaborators that would all fail, the no-FID
request still renders the static error and calls none of them. -/
theorem C9_witness :
    ownedTokensRoute none none (fun _ => Except.error ())
      (fun _ => Except.error ()) (fun _ => Except.error ())
      (fun _ => Except.error ()) = (⟨.errorNoFid, ["/"]⟩, []) ∧
    checkRoute none (fun _ => Except.error ()) =
      (⟨.errorNoFid, ["/"]⟩, []) :=
  C9_noFidShortCircuit none (fun _ => Except.error ())
    (fun _ => Except.error ()) (fun _ => Except.error ())
    (fun _ => Except.error ()) (fun _ => Except.error ())

end FanTokens
